import Mathlib

/-!
# Shallow embedding of the accounting server's ledger core

This file embeds, in Lean, the data model and the operations of the
accounting server (`src/server/routes/*.ts`, schema in
`src/server/db/schema.ts`) that the verified claims are about, and proves
the claims over that embedding.

Modelling conventions:
* The in-memory SQLite database is modelled as a `Store` holding the rows
  of each table as a list, in table order.  `db.select().from(t).where(p).limit(1)`
  becomes `List.find?`, inner joins become `List.filterMap` with a
  `find?` on the joined table, inserts append to the list.
* JavaScript numbers are modelled as exact rationals (`ℚ`).  Every claim
  settled here is insensitive to the difference between IEEE-754 doubles
  and exact rationals at the inputs involved (this was checked separately
  for the half-way rounding input of claim C8, where double arithmetic
  and exact arithmetic agree on the result 10.01).
* Timestamps (`entryDate` and the derived start-of-day / end-of-day
  cutoffs the routes compute with `setUTCHours`) are opaque integers;
  the routes' date filters `gte`/`lte` become integer comparisons against
  an optional cutoff.  No claim depends on calendar arithmetic.
* `saveDatabase()` / `logAudit()` side effects are outside the store and
  are not modelled; no claim settled here depends on them except C9,
  which is about event-loop interleaving and is not formalised.
-/

namespace Accounting

/-- The closed set of GL account types (`ACCOUNT_TYPES` in `schema.ts`). -/
inductive AccountType where
  | asset
  | cash
  | accountsReceivable
  | equity
  | accountsPayable
  | profit
  | loss
  | openingBalance
deriving DecidableEq, Repr

/-- The debit-normal test used throughout `reports.ts`:
`['Asset', 'Cash', 'Accounts Receivable', 'Loss'].includes(type)`. -/
def AccountType.isDebitNormal : AccountType → Bool
  | .asset => true
  | .cash => true
  | .accountsReceivable => true
  | .loss => true
  | _ => false

/-- The asset grouping used by the balance sheet:
`['Asset', 'Cash', 'Accounts Receivable'].includes(type)`. -/
def AccountType.isAssetGroup : AccountType → Bool
  | .asset => true
  | .cash => true
  | .accountsReceivable => true
  | _ => false

/-- A row of the `currencies` table (timestamps omitted; no claim uses them). -/
structure Currency where
  code : String
  name : String
  symbol : String
  exchangeRate : ℚ
  isDefault : Bool
deriving DecidableEq, Repr

/-- A row of the `gl_accounts` table. -/
structure GLAccount where
  id : Int
  accountNumber : String
  name : String
  type : AccountType
  isActive : Bool
deriving DecidableEq, Repr

/-- A row of the `subledger_accounts` table. -/
structure SubledgerAccount where
  id : Int
  glAccountId : Int
  accountNumber : String
  name : String
  currencyCode : String
  isActive : Bool
deriving DecidableEq, Repr

/-- A row of the `journal_entries` table. -/
structure JournalEntry where
  id : Int
  entryDate : Int
  amount : ℚ
  currencyCode : String
  amountInUSD : ℚ
  debitAccountId : Int
  creditAccountId : Int
  description : String
  category : Option String
  comment : Option String
deriving DecidableEq, Repr

/-- The in-memory database: one list of rows per table, plus the next
auto-increment id for `journal_entries` (the only table whose generated
ids a claim mentions). -/
structure Store where
  currencies : List Currency
  glAccounts : List GLAccount
  subledgerAccounts : List SubledgerAccount
  journalEntries : List JournalEntry
  nextEntryId : Int
deriving DecidableEq, Repr

/-- The empty store created on first start when no backing file exists. -/
def Store.initial : Store :=
  { currencies := [], glAccounts := [], subledgerAccounts := [],
    journalEntries := [], nextEntryId := 1 }

/-- `db.select().from(currencies).where(eq(currencies.code, c)).limit(1)`. -/
def lookupCurrency (s : Store) (code : String) : Option Currency :=
  s.currencies.find? (fun c => c.code = code)

/-- `db.select().from(subledgerAccounts).where(eq(subledgerAccounts.id, i)).limit(1)`. -/
def lookupSubledgerById (s : Store) (i : Int) : Option SubledgerAccount :=
  s.subledgerAccounts.find? (fun a => a.id = i)

/-- `db.select().from(subledgerAccounts).where(eq(subledgerAccounts.accountNumber, n)).limit(1)`. -/
def lookupSubledgerByNumber (s : Store) (n : String) : Option SubledgerAccount :=
  s.subledgerAccounts.find? (fun a => a.accountNumber = n)

/-- `db.select().from(glAccounts).where(eq(glAccounts.id, i)).limit(1)`. -/
def lookupGLById (s : Store) (i : Int) : Option GLAccount :=
  s.glAccounts.find? (fun g => g.id = i)

/-- JavaScript `String.prototype.toUpperCase()` on the ASCII codes the
routes handle (currency codes), character by character. -/
def jsToUpperCase (s : String) : String := ⟨s.data.map Char.toUpper⟩

/-- JavaScript `Math.round`: the nearest integer, half-way cases rounding
toward positive infinity, i.e. `⌊q + 1/2⌋` on exact values. -/
def mathRound (q : ℚ) : ℤ := ⌊q + 1/2⌋

/-- The `Math.round(x * 100) / 100` rounding applied to every
`amountInUSD` computation in `journal-entries.ts`. -/
def round2 (q : ℚ) : ℚ := (mathRound (q * 100) : ℚ) / 100

/-- Decidable equality for `Except` results, used to evaluate concrete
route outcomes. -/
instance exceptDecEq {ε α : Type} [DecidableEq ε] [DecidableEq α] :
    DecidableEq (Except ε α) := fun x y =>
  match x, y with
  | .error a, .error b =>
    if h : a = b then isTrue (by rw [h])
    else isFalse (by intro hc; cases hc; exact h rfl)
  | .ok a, .ok b =>
    if h : a = b then isTrue (by rw [h])
    else isFalse (by intro hc; cases hc; exact h rfl)
  | .error _, .ok _ => isFalse (by intro hc; cases hc)
  | .ok _, .error _ => isFalse (by intro hc; cases hc)

/-! ## Journal entry routes (`journal-entries.ts`) -/

/-- The request body of `POST /api/journal-entries`, with JSON values
already lexed into typed fields (the zod coercions `z.coerce.date()` /
number parsing are outside the embedding). -/
structure CreateJEInput where
  entryDate : Int
  amount : ℚ
  currencyCode : String := "USD"
  debitAccountId : Int
  creditAccountId : Int
  description : String
  category : Option String := none
  comment : Option String := none
deriving DecidableEq, Repr

/-- The semantic checks of `createJournalEntrySchema` before its
`.refine`: positive amount, 3-letter currency code, positive integer
account ids, description between 1 and 500 characters, category and
comment length bounds.  (`z.number()` also excludes NaN and infinities;
rationals are always finite.) -/
def createSchemaOk (i : CreateJEInput) : Bool :=
  0 < i.amount && i.currencyCode.length = 3 &&
  0 < i.debitAccountId && 0 < i.creditAccountId &&
  1 ≤ i.description.length && i.description.length ≤ 500 &&
  (match i.category with | none => true | some c => c.length ≤ 100) &&
  (match i.comment with | none => true | some c => c.length ≤ 1000)

/-- The distinct failure kinds of `POST /api/journal-entries`:
a zod parse failure on the base object, the `.refine` failure
(`debit ≠ credit`), and the three 404 responses. -/
inductive JEError where
  | schemaViolation
  | debitEqualsCredit
  | debitNotFound (id : Int)
  | creditNotFound (id : Int)
  | currencyNotFound (code : String)
deriving DecidableEq, Repr

/-- Append a journal entry row, assigning the next auto-increment id. -/
def Store.insertEntry (s : Store) (e : Int → JournalEntry) : Store × JournalEntry :=
  let row := e s.nextEntryId
  ({ s with journalEntries := s.journalEntries ++ [row],
            nextEntryId := s.nextEntryId + 1 }, row)

/-- `POST /api/journal-entries`: zod parse (base schema, then the
debit ≠ credit `.refine`), then, in this order, the debit-account,
credit-account and currency existence checks, then the `amountInUSD`
computation and the insert. -/
def createJournalEntry (s : Store) (i : CreateJEInput) :
    Except JEError (Store × JournalEntry) :=
  if ¬ createSchemaOk i then .error .schemaViolation
  else if i.debitAccountId = i.creditAccountId then .error .debitEqualsCredit
  else
    match lookupSubledgerById s i.debitAccountId with
    | none => .error (.debitNotFound i.debitAccountId)
    | some _ =>
      match lookupSubledgerById s i.creditAccountId with
      | none => .error (.creditNotFound i.creditAccountId)
      | some _ =>
        match lookupCurrency s i.currencyCode with
        | none => .error (.currencyNotFound i.currencyCode)
        | some cur =>
          let amountInUSD := round2 (i.amount * cur.exchangeRate)
          .ok (s.insertEntry (fun id =>
            { id := id, entryDate := i.entryDate, amount := i.amount,
              currencyCode := i.currencyCode, amountInUSD := amountInUSD,
              debitAccountId := i.debitAccountId,
              creditAccountId := i.creditAccountId,
              description := i.description, category := i.category,
              comment := i.comment }))

/-- `GET /api/journal-entries/:id`: returns the stored row unchanged
(no field is recomputed on read). -/
def getJournalEntry (s : Store) (id : Int) : Option JournalEntry :=
  s.journalEntries.find? (fun e => e.id = id)

/-- The request body of `PUT /api/journal-entries/:id`
(`updateJournalEntrySchema`: every field optional). -/
structure UpdateJEInput where
  entryDate : Option Int := none
  amount : Option ℚ := none
  currencyCode : Option String := none
  debitAccountId : Option Int := none
  creditAccountId : Option Int := none
  description : Option String := none
  category : Option String := none
  comment : Option String := none
deriving DecidableEq, Repr

/-- The semantic checks of `updateJournalEntrySchema` on the provided
fields. -/
def updateSchemaOk (i : UpdateJEInput) : Bool :=
  (match i.amount with | none => true | some a => 0 < a) &&
  (match i.currencyCode with | none => true | some c => c.length = 3) &&
  (match i.debitAccountId with | none => true | some d => 0 < d) &&
  (match i.creditAccountId with | none => true | some c => 0 < c) &&
  (match i.description with
   | none => true | some d => 1 ≤ d.length && d.length ≤ 500) &&
  (match i.category with | none => true | some c => c.length ≤ 100) &&
  (match i.comment with | none => true | some c => c.length ≤ 1000)

/-- Failure kinds of `PUT /api/journal-entries/:id`. -/
inductive UpdateJEError where
  | schemaViolation
  | entryNotFound (id : Int)
  | debitEqualsCredit
  | debitNotFound (id : Int)
  | creditNotFound (id : Int)
  | currencyNotFound (code : String)
deriving DecidableEq, Repr

/-- Apply the `db.update(journalEntries).set(updateData)` write: every
provided field replaces the stored one; `amountInUSD` is replaced only
when the route put it into `updateData`. -/
def applyJEUpdate (e : JournalEntry) (i : UpdateJEInput)
    (newUSD : Option ℚ) : JournalEntry :=
  { e with
    entryDate := i.entryDate.getD e.entryDate,
    amount := i.amount.getD e.amount,
    currencyCode := i.currencyCode.getD e.currencyCode,
    debitAccountId := i.debitAccountId.getD e.debitAccountId,
    creditAccountId := i.creditAccountId.getD e.creditAccountId,
    description := i.description.getD e.description,
    category := (i.category.map some).getD e.category,
    comment := (i.comment.map some).getD e.comment,
    amountInUSD := newUSD.getD e.amountInUSD }

/-- `PUT /api/journal-entries/:id`: existence check, debit ≠ credit when
both provided, per-leg existence checks for provided legs, and — only
when `amount` or `currencyCode` is provided — a currency lookup and the
`amountInUSD` recomputation `round2(amount × rate)` with the effective
amount/currency (provided value, else the stored one). -/
def updateJournalEntry (s : Store) (id : Int) (i : UpdateJEInput) :
    Except UpdateJEError (Store × JournalEntry) :=
  if ¬ updateSchemaOk i then .error .schemaViolation
  else
    match getJournalEntry s id with
    | none => .error (.entryNotFound id)
    | some existing =>
      if i.debitAccountId.isSome ∧ i.creditAccountId.isSome ∧
          i.debitAccountId = i.creditAccountId then .error .debitEqualsCredit
      else if i.debitAccountId.isSome ∧
          lookupSubledgerById s (i.debitAccountId.getD 0) = none then
        .error (.debitNotFound (i.debitAccountId.getD 0))
      else if i.creditAccountId.isSome ∧
          lookupSubledgerById s (i.creditAccountId.getD 0) = none then
        .error (.creditNotFound (i.creditAccountId.getD 0))
      else
        let needsUSD := i.amount.isSome || i.currencyCode.isSome
        let effCode := i.currencyCode.getD existing.currencyCode
        let effAmount := i.amount.getD existing.amount
        if needsUSD then
          match lookupCurrency s effCode with
          | none => .error (.currencyNotFound effCode)
          | some cur =>
            let newUSD := round2 (effAmount * cur.exchangeRate)
            let updated := applyJEUpdate existing i (some newUSD)
            .ok ({ s with journalEntries :=
                    s.journalEntries.map (fun e => if e.id = id then updated else e) },
                 updated)
        else
          let updated := applyJEUpdate existing i none
          .ok ({ s with journalEntries :=
                  s.journalEntries.map (fun e => if e.id = id then updated else e) },
               updated)

/-! ## Currency routes (`currencies.ts`) -/

/-- The request body of `POST /api/currencies` (`createCurrencySchema`);
zod applies `.toUpperCase()` to the code and defaults
`exchangeRate := 1`, `isDefault := false`. -/
structure CreateCurrencyInput where
  code : String
  name : String
  symbol : String
  exchangeRate : ℚ := 1
  isDefault : Bool := false
deriving DecidableEq, Repr

/-- Semantic checks of `createCurrencySchema`. -/
def createCurrencySchemaOk (i : CreateCurrencyInput) : Bool :=
  i.code.length = 3 &&
  1 ≤ i.name.length && i.name.length ≤ 100 &&
  1 ≤ i.symbol.length && i.symbol.length ≤ 10 &&
  0 < i.exchangeRate

/-- The request body of `PUT /api/currencies/:code`
(`updateCurrencySchema`: every field optional, no code change). -/
structure UpdateCurrencyInput where
  name : Option String := none
  symbol : Option String := none
  exchangeRate : Option ℚ := none
  isDefault : Option Bool := none
deriving DecidableEq, Repr

/-- Semantic checks of `updateCurrencySchema` on provided fields. -/
def updateCurrencySchemaOk (i : UpdateCurrencyInput) : Bool :=
  (match i.name with | none => true | some n => 1 ≤ n.length && n.length ≤ 100) &&
  (match i.symbol with | none => true | some sy => 1 ≤ sy.length && sy.length ≤ 10) &&
  (match i.exchangeRate with | none => true | some r => 0 < r)

/-- Failure kinds of the currency routes: a zod parse failure, the 404
for an unknown code, the SQLite primary-key violation on a duplicate
insert, and the 400 guarding deletion of the default currency. -/
inductive CurrencyError where
  | schemaViolation
  | notFound (code : String)
  | duplicateCode (code : String)
  | cannotDeleteDefault
deriving DecidableEq, Repr

/-- The `UPDATE currencies SET is_default = false WHERE is_default = true`
issued before a new default is stored. -/
def clearDefaults (l : List Currency) : List Currency :=
  l.map (fun c => if c.isDefault then { c with isDefault := false } else c)

/-- The store after the `if (validatedData.isDefault) { ... set all
is_default = false ... }` step of the currency create route. -/
def createCurrencyCleared (s : Store) (i : CreateCurrencyInput) : Store :=
  if i.isDefault then { s with currencies := clearDefaults s.currencies } else s

/-- The row inserted by `POST /api/currencies` (code upper-cased by zod). -/
def mkCurrencyRow (i : CreateCurrencyInput) : Currency :=
  { code := jsToUpperCase i.code, name := i.name, symbol := i.symbol,
    exchangeRate := i.exchangeRate, isDefault := i.isDefault }

/-- `POST /api/currencies`: zod parse; if `isDefault` then clear every
existing default; insert the new row.  The route performs no uniqueness
check of its own — a duplicate code makes the SQLite insert throw *after*
the defaults were already cleared, so the operation returns the post-state
alongside the result. -/
def createCurrency (s : Store) (i : CreateCurrencyInput) :
    Except CurrencyError Currency × Store :=
  if ¬ createCurrencySchemaOk i then (.error .schemaViolation, s)
  else
    if ((createCurrencyCleared s i).currencies.find?
        (fun c => c.code = jsToUpperCase i.code)).isSome then
      (.error (.duplicateCode (jsToUpperCase i.code)), createCurrencyCleared s i)
    else
      (.ok (mkCurrencyRow i),
       { createCurrencyCleared s i with
         currencies := (createCurrencyCleared s i).currencies ++
           [mkCurrencyRow i] })

/-- Apply `db.update(currencies).set(validatedData)` to one row. -/
def applyCurrencyUpdate (c : Currency) (i : UpdateCurrencyInput) : Currency :=
  { c with
    name := i.name.getD c.name,
    symbol := i.symbol.getD c.symbol,
    exchangeRate := i.exchangeRate.getD c.exchangeRate,
    isDefault := i.isDefault.getD c.isDefault }

/-- The post-state of a successful `PUT /api/currencies/:code`: when
`isDefault` is provided and `true`, every existing default is cleared
first; then the row whose code matches is updated with the provided
fields.  Only the `currencies` table changes. -/
def updateCurrencyStore (s : Store) (code : String) (i : UpdateCurrencyInput) :
    Store :=
  { s with
    currencies :=
      ((if i.isDefault = some true then clearDefaults s.currencies
        else s.currencies).map
       (fun c =>
         if c.code = jsToUpperCase code then applyCurrencyUpdate c i else c)) }

/-- `PUT /api/currencies/:code`: zod parse; 404 when the (upper-cased)
code is unknown; when `isDefault` is provided and `true`, clear every
existing default; then update the matching row with the provided fields.
Nothing else in the store — in particular no journal entry — is touched. -/
def updateCurrency (s : Store) (code : String) (i : UpdateCurrencyInput) :
    Except CurrencyError Currency × Store :=
  if ¬ updateCurrencySchemaOk i then (.error .schemaViolation, s)
  else
    match lookupCurrency s (jsToUpperCase code) with
    | none => (.error (.notFound code), s)
    | some _ =>
      match lookupCurrency (updateCurrencyStore s code i) (jsToUpperCase code) with
      | some c2 => (.ok c2, updateCurrencyStore s code i)
      | none => (.error (.notFound code), updateCurrencyStore s code i)

/-- `DELETE /api/currencies/:code`: 404 when unknown; 400 (`Cannot delete
the default currency`) when the row has `isDefault = true` — this check
runs before anything is written, and there is no referential check at
all; otherwise the row is removed. -/
def deleteCurrency (s : Store) (code : String) :
    Except CurrencyError Unit × Store :=
  match lookupCurrency s (jsToUpperCase code) with
  | none => (.error (.notFound code), s)
  | some c =>
    if c.isDefault then (.error .cannotDeleteDefault, s)
    else
      (.ok (),
       { s with
         currencies :=
           (s.currencies.filter (fun d => d.code ≠ jsToUpperCase code)) })

/-! ## Report routes (`reports.ts`)

The routes convert the requested dates into cutoff timestamps with
`setUTCHours(0,0,0,0)` / `setUTCHours(23,59,59,999)` and compare
`entryDate` against them with `gte` / `lte`.  The embedding takes the
cutoffs themselves (`startCutoff` / `endCutoff`) as the optional
parameters; no claim depends on the day-boundary calendar arithmetic.
The `localeCompare`-based sorts order the rows inside a report; no claim
depends on that order, so the sorts are not modelled (membership and
totals are unaffected). -/

/-- One element of `calculateBalances`' result. -/
structure AccountBalanceRow where
  accountId : Int
  accountNumber : String
  accountName : String
  glAccountId : Int
  glAccountNumber : String
  glAccountName : String
  glAccountType : AccountType
  balance : ℚ
deriving DecidableEq, Repr

/-- The account query inside `calculateBalances`: subledger accounts
inner-joined with their GL account, keeping rows with
`isActive = true` and `glAccounts.type != 'Opening Balance'`. -/
def reportAccounts (s : Store) : List (SubledgerAccount × GLAccount) :=
  s.subledgerAccounts.filterMap (fun a =>
    match lookupGLById s a.glAccountId with
    | none => none
    | some g =>
      if a.isActive ∧ g.type ≠ .openingBalance then some (a, g) else none)

/-- The date filter of `calculateBalances` (and of the ledger route):
keep entries with `startCutoff ≤ entryDate` and `entryDate ≤ endCutoff`
where a cutoff is present. -/
def inRange (startCutoff endCutoff : Option Int) (e : JournalEntry) : Bool :=
  (match startCutoff with | none => true | some t => t ≤ e.entryDate) &&
  (match endCutoff with | none => true | some t => e.entryDate ≤ t)

/-- The per-entry balance contribution of the loop body inside
`calculateBalances`: the debit `if` adds `amountInUSD` for debit-normal
types and subtracts it otherwise; the credit `if` does the opposite.
Both apply when the entry has the account on both legs. -/
def contrib (t : AccountType) (accId : Int) (e : JournalEntry) : ℚ :=
  (if e.debitAccountId = accId then
    (if t.isDebitNormal then e.amountInUSD else -e.amountInUSD) else 0) +
  (if e.creditAccountId = accId then
    (if t.isDebitNormal then -e.amountInUSD else e.amountInUSD) else 0)

/-- The signed balance accumulated over the entry list. -/
def accountBalance (entries : List JournalEntry) (t : AccountType) (accId : Int) : ℚ :=
  entries.foldl (fun b e => b + contrib t accId e) 0

/-- `calculateBalances(startDate?, endDate?, ...)`: one balance row per
report account, summing debit/credit contributions over the in-range
entries. -/
def calculateBalances (s : Store) (startCutoff endCutoff : Option Int) :
    List AccountBalanceRow :=
  let entries := s.journalEntries.filter (inRange startCutoff endCutoff)
  (reportAccounts s).map (fun p =>
    { accountId := p.1.id, accountNumber := p.1.accountNumber,
      accountName := p.1.name, glAccountId := p.2.id,
      glAccountNumber := p.2.accountNumber, glAccountName := p.2.name,
      glAccountType := p.2.type,
      balance := accountBalance entries p.2.type p.1.id })

/-- Sum of the `balance` fields, mirroring `reduce((sum, a) => sum + a.balance, 0)`. -/
def totalBalance (l : List AccountBalanceRow) : ℚ :=
  l.foldl (fun sum a => sum + a.balance) 0

/-- The response of `GET /api/reports/balance-sheet` (account lists plus
totals; the `localeCompare` sorts are omitted). -/
structure BalanceSheet where
  assets : List AccountBalanceRow
  liabilities : List AccountBalanceRow
  equity : List AccountBalanceRow
  totalAssets : ℚ
  totalLiabilities : ℚ
  totalEquity : ℚ
  retainedEarnings : ℚ
  totalLiabilitiesAndEquity : ℚ
  balanced : Bool
deriving DecidableEq, Repr

/-- `GET /api/reports/balance-sheet`: balances as of the end cutoff,
grouped by GL type; retained earnings = Σ Profit balances − Σ Loss
balances; `balanced` compares assets against liabilities + equity +
retained earnings with the 0.01 tolerance. -/
def balanceSheet (s : Store) (endCutoff : Option Int) : BalanceSheet :=
  let balances := calculateBalances s none endCutoff
  let assets := balances.filter (fun b => b.glAccountType.isAssetGroup)
  let liabilities := balances.filter (fun b => b.glAccountType = .accountsPayable)
  let equity := balances.filter (fun b => b.glAccountType = .equity)
  let totalAssets := totalBalance assets
  let totalLiabilities := totalBalance liabilities
  let totalEquity := totalBalance equity
  let revenue := balances.filter (fun b => b.glAccountType = .profit)
  let expenses := balances.filter (fun b => b.glAccountType = .loss)
  let retainedEarnings := totalBalance revenue - totalBalance expenses
  { assets := assets, liabilities := liabilities, equity := equity,
    totalAssets := totalAssets, totalLiabilities := totalLiabilities,
    totalEquity := totalEquity, retainedEarnings := retainedEarnings,
    totalLiabilitiesAndEquity := totalLiabilities + totalEquity + retainedEarnings,
    balanced :=
      decide (|totalAssets - (totalLiabilities + totalEquity + retainedEarnings)| <
        (1 : ℚ)/100) }

/-- The response of `GET /api/reports/profit-loss`. -/
structure ProfitLoss where
  revenue : List AccountBalanceRow
  expenses : List AccountBalanceRow
  totalRevenue : ℚ
  totalExpenses : ℚ
  netIncome : ℚ
deriving DecidableEq, Repr

/-- `GET /api/reports/profit-loss`: Profit and Loss balances over the
period; `netIncome = totalRevenue − totalExpenses`. -/
def profitLoss (s : Store) (startCutoff endCutoff : Option Int) : ProfitLoss :=
  let balances := calculateBalances s startCutoff endCutoff
  let revenue := balances.filter (fun b => b.glAccountType = .profit)
  let expenses := balances.filter (fun b => b.glAccountType = .loss)
  { revenue := revenue, expenses := expenses,
    totalRevenue := totalBalance revenue,
    totalExpenses := totalBalance expenses,
    netIncome := totalBalance revenue - totalBalance expenses }

/-- One row of the trial balance: the signed balance mapped onto the
debit or credit column by the account's normal side. -/
structure TrialBalanceRow where
  row : AccountBalanceRow
  debit : ℚ
  credit : ℚ
deriving DecidableEq, Repr

/-- The response of `GET /api/reports/trial-balance`. -/
structure TrialBalance where
  accounts : List TrialBalanceRow
  totalDebits : ℚ
  totalCredits : ℚ
  balanced : Bool
deriving DecidableEq, Repr

/-- `GET /api/reports/trial-balance`: accounts with `|balance| > 0.01`,
each mapped to a debit or credit column by normal side;
`balanced = |Σdebit − Σcredit| < 0.01`. -/
def trialBalance (s : Store) (endCutoff : Option Int) : TrialBalance :=
  let balances := calculateBalances s none endCutoff
  let rows := (balances.filter (fun b => |b.balance| > (1 : ℚ)/100)).map (fun b =>
    if b.glAccountType.isDebitNormal then
      { row := b, debit := if b.balance > 0 then b.balance else 0,
        credit := if b.balance < 0 then |b.balance| else 0 }
    else
      { row := b, debit := if b.balance < 0 then |b.balance| else 0,
        credit := if b.balance > 0 then b.balance else 0 })
  let totalDebits := rows.foldl (fun sum a => sum + a.debit) 0
  let totalCredits := rows.foldl (fun sum a => sum + a.credit) 0
  { accounts := rows, totalDebits := totalDebits, totalCredits := totalCredits,
    balanced := decide (|totalDebits - totalCredits| < (1 : ℚ)/100) }

/-- One annotated line of the account ledger response. -/
structure LedgerLine where
  entry : JournalEntry
  debit : ℚ
  credit : ℚ
  balance : ℚ
deriving DecidableEq, Repr

/-- The response of `GET /api/reports/account-ledger/:id`. -/
structure Ledger where
  accountId : Int
  glAccountType : AccountType
  entries : List LedgerLine
  finalBalance : ℚ
deriving DecidableEq, Repr

/-- The loop body of the ledger route: set the line's debit/credit
amounts and advance the running balance by the §4.2 sign rule. -/
def ledgerStep (t : AccountType) (accId : Int)
    (acc : ℚ × List LedgerLine) (e : JournalEntry) : ℚ × List LedgerLine :=
  let debit := if e.debitAccountId = accId then e.amountInUSD else 0
  let credit := if e.creditAccountId = accId then e.amountInUSD else 0
  let rb1 :=
    if e.debitAccountId = accId then
      (if t.isDebitNormal then acc.1 + debit else acc.1 - debit)
    else acc.1
  let rb2 :=
    if e.creditAccountId = accId then
      (if t.isDebitNormal then rb1 - credit else rb1 + credit)
    else rb1
  (rb2, acc.2 ++ [{ entry := e, debit := debit, credit := credit, balance := rb2 }])

/-- Stable insertion step for a descending sort by `entryDate`:
an earlier row stays in front of later rows carrying the same date. -/
def insertByDateDesc (e : JournalEntry) : List JournalEntry → List JournalEntry
  | [] => [e]
  | x :: xs =>
    if x.entryDate ≤ e.entryDate then e :: x :: xs
    else x :: insertByDateDesc e xs

/-- `orderBy(desc(journalEntries.entryDate))`: a stable sort of the rows
by entry date, newest first. -/
def orderByDateDesc : List JournalEntry → List JournalEntry
  | [] => []
  | e :: es => insertByDateDesc e (orderByDateDesc es)

/-- `GET /api/reports/account-ledger/:id`: after the account join, the
matching entries are fetched ordered by `entryDate` **descending**; the
running balance is accumulated over that descending list; the line list
is then reversed (oldest first) and `finalBalance` is the accumulator
after the whole pass. -/
def accountLedger (s : Store) (accId : Int) (startCutoff endCutoff : Option Int) :
    Option Ledger :=
  match s.subledgerAccounts.find? (fun a => a.id = accId) with
  | none => none
  | some a =>
    match lookupGLById s a.glAccountId with
    | none => none
    | some g =>
      let txs := orderByDateDesc (s.journalEntries.filter (fun e =>
          (e.debitAccountId = accId ∨ e.creditAccountId = accId) &&
          inRange startCutoff endCutoff e))
      let res := txs.foldl (ledgerStep g.type accId) (0, [])
      some { accountId := a.id, glAccountType := g.type,
             entries := res.2.reverse, finalBalance := res.1 }

/-! ## CSV batch import (`POST /api/journal-entries/import/csv`)

A parsed CSV record, with the raw-string lexing already performed:
`date = none` stands for a `Date` column `new Date(...)` turned into
`NaN`; `amount = none` for a `parseFloat` result of `NaN`; `currency`,
`description`, `category`, `comment` are `none` when the column is
missing or empty (falsy), matching the `record.X || default` accesses. -/

structure CsvRecord where
  date : Option Int
  debitAccount : String
  creditAccount : String
  amount : Option ℚ
  currency : Option String := none
  description : Option String := none
  category : Option String := none
  comment : Option String := none
deriving DecidableEq, Repr

/-- A row that passed the validation phase, ready to insert. -/
structure ValidatedEntry where
  entryDate : Int
  amount : ℚ
  currencyCode : String
  amountInUSD : ℚ
  debitAccountId : Int
  creditAccountId : Int
  description : String
  category : Option String
  comment : Option String
deriving DecidableEq, Repr

/-- The per-row validation of the import loop, in source order: date
parses; debit account number resolves; credit account number resolves;
the two resolved ids differ; amount parses and is positive; the currency
(defaulting to `USD`) exists.  On success the row is converted with
`amountInUSD = round2(amount × rate)`. -/
def validateRow (s : Store) (r : CsvRecord) : Except String ValidatedEntry :=
  match r.date with
  | none => .error "Invalid date"
  | some d =>
    match lookupSubledgerByNumber s r.debitAccount with
    | none => .error ("Debit account not found: " ++ r.debitAccount)
    | some debit =>
      match lookupSubledgerByNumber s r.creditAccount with
      | none => .error ("Credit account not found: " ++ r.creditAccount)
      | some credit =>
        if debit.id = credit.id then
          .error "Debit and credit accounts must be different"
        else
          match r.amount with
          | none => .error "Invalid amount"
          | some amt =>
            if amt ≤ 0 then .error "Invalid amount"
            else
              let currencyCode := r.currency.getD "USD"
              match lookupCurrency s currencyCode with
              | none => .error ("Currency not found: " ++ currencyCode)
              | some cur =>
                .ok { entryDate := d, amount := amt,
                      currencyCode := currencyCode,
                      amountInUSD := round2 (amt * cur.exchangeRate),
                      debitAccountId := debit.id, creditAccountId := credit.id,
                      description := r.description.getD "Imported from CSV",
                      category := r.category, comment := r.comment }

/-- The validation phase (`for (let i = 0; ...)`), started at record
index `i`: returns the validated rows in input order, the failure count,
and the error strings `Row ${i + 2}: ...` (index + 2 because row 1 of
the file is the header). -/
def importPhase1 (s : Store) : Nat → List CsvRecord →
    List ValidatedEntry × Nat × List String
  | _, [] => ([], 0, [])
  | i, r :: rs =>
    let rest := importPhase1 s (i + 1) rs
    match validateRow s r with
    | .ok v => (v :: rest.1, rest.2.1, rest.2.2)
    | .error m =>
      (rest.1, rest.2.1 + 1, ("Row " ++ toString (i + 2) ++ ": " ++ m) :: rest.2.2)

/-- The journal entry row produced for a validated import row. -/
def mkEntryRow (id : Int) (v : ValidatedEntry) : JournalEntry :=
  { id := id, entryDate := v.entryDate, amount := v.amount,
    currencyCode := v.currencyCode, amountInUSD := v.amountInUSD,
    debitAccountId := v.debitAccountId, creditAccountId := v.creditAccountId,
    description := v.description, category := v.category,
    comment := v.comment }

/-- Insert one validated row as a journal entry. -/
def insertValidated (s : Store) (v : ValidatedEntry) : Store :=
  (s.insertEntry (fun id => mkEntryRow id v)).1

/-- The commit phase: insert every validated row, in order. -/
def importPhase2 (s : Store) (vs : List ValidatedEntry) : Store :=
  vs.foldl insertValidated s

/-- The `{success, failed, errors}` body returned by the import route. -/
structure ImportResult where
  success : Nat
  failed : Nat
  errors : List String
deriving DecidableEq, Repr

/-- `POST /api/journal-entries/import/csv`: validate every record
against the current store without writing; if any record failed, return
`success = 0` with the collected errors and leave the store untouched;
otherwise insert every validated record in input order (the loop
increments `success` once per insert). -/
def importCSV (s : Store) (records : List CsvRecord) : ImportResult × Store :=
  if (importPhase1 s 0 records).2.1 > 0 then
    ({ success := 0, failed := (importPhase1 s 0 records).2.1,
       errors := (importPhase1 s 0 records).2.2 }, s)
  else
    ({ success := (importPhase1 s 0 records).1.length, failed := 0,
       errors := [] },
     importPhase2 s (importPhase1 s 0 records).1)

/-- Whether a record fails the validation phase against a store. -/
def rowFails (s : Store) (r : CsvRecord) : Bool :=
  match validateRow s r with
  | .error _ => true
  | .ok _ => false

/-- The error string for an indexed record, when it fails validation. -/
def rowErrorLabel (s : Store) (p : Nat × CsvRecord) : Option String :=
  match validateRow s p.2 with
  | .error m => some ("Row " ++ toString (p.1 + 2) ++ ": " ++ m)
  | .ok _ => none

/-- The rows committed by the commit phase: one journal entry per
validated row, ids assigned sequentially from `n`. -/
def buildRows : Int → List ValidatedEntry → List JournalEntry
  | _, [] => []
  | n, v :: vs => mkEntryRow n v :: buildRows (n + 1) vs

/-! ## Claim-side reference definitions -/

/-- Stable insertion step for an ascending sort by `entryDate`. -/
def insertByDateAsc (e : JournalEntry) : List JournalEntry → List JournalEntry
  | [] => [e]
  | x :: xs =>
    if e.entryDate ≤ x.entryDate then e :: x :: xs
    else x :: insertByDateAsc e xs

/-- Stable ascending (chronological) sort by `entryDate`. -/
def orderByDateAsc : List JournalEntry → List JournalEntry
  | [] => []
  | e :: es => insertByDateAsc e (orderByDateAsc es)

/-- Running balances of a chronological replay, starting from `rb`:
the k-th element is the balance immediately after the k-th entry. -/
def replayBalances (t : AccountType) (accId : Int) (rb : ℚ) :
    List JournalEntry → List ℚ
  | [] => []
  | e :: es =>
    let rb2 := rb + contrib t accId e
    rb2 :: replayBalances t accId rb2 es

/-- Follows the wording of spec §4.3 / claim C3, not the code: replay the
given entries **in chronological order** under the §4.2 sign rule and
annotate each entry with the running balance immediately after it.
Compared against the route's suffix-style annotation in the C3 theorem. -/
def specRunningBalances (t : AccountType) (accId : Int)
    (entries : List JournalEntry) : List ℚ :=
  replayBalances t accId 0 (orderByDateAsc entries)

/-- The coefficient with which an account type's balance enters the
balance-sheet difference `totalAssets − (totalLiabilities + totalEquity +
retainedEarnings)`; Opening-Balance accounts never appear in a report, so
their coefficient is irrelevant and set to 0. -/
def typeWeight : AccountType → ℚ
  | .asset => 1
  | .cash => 1
  | .accountsReceivable => 1
  | .accountsPayable => -1
  | .equity => -1
  | .profit => -1
  | .loss => 1
  | .openingBalance => 0

/-! ## Concrete sample data for witnesses and counterexamples -/

/-- The reporting currency at rate 1, marked default. -/
def usd : Currency :=
  { code := "USD", name := "US Dollar", symbol := "$", exchangeRate := 1,
    isDefault := true }

/-- An Asset-type GL account. -/
def glAsset : GLAccount :=
  { id := 1, accountNumber := "1000", name := "Assets", type := .asset,
    isActive := true }

/-- An Accounts-Payable-type GL account. -/
def glPayable : GLAccount :=
  { id := 2, accountNumber := "2000", name := "Payables",
    type := .accountsPayable, isActive := true }

/-- An active asset subledger account (id 1, number 1001). -/
def subBank : SubledgerAccount :=
  { id := 1, glAccountId := 1, accountNumber := "1001", name := "Bank",
    currencyCode := "USD", isActive := true }

/-- An active payable subledger account (id 2, number 2001). -/
def subVendor : SubledgerAccount :=
  { id := 2, glAccountId := 2, accountNumber := "2001", name := "Vendor",
    currencyCode := "USD", isActive := true }

/-- A USD journal entry debiting account 1 and crediting account 2. -/
def sampleEntry (id date : Int) (amt : ℚ) : JournalEntry :=
  { id := id, entryDate := date, amount := amt, currencyCode := "USD",
    amountInUSD := amt, debitAccountId := 1, creditAccountId := 2,
    description := "x", category := none, comment := none }

/-- Two active accounts, one currency, no entries yet. -/
def baseStore : Store :=
  { currencies := [usd], glAccounts := [glAsset, glPayable],
    subledgerAccounts := [subBank, subVendor], journalEntries := [],
    nextEntryId := 1 }

/-- `baseStore` with two entries on account 1 (10 on day 1, 20 on day 2). -/
def ledgerStore : Store :=
  { baseStore with
    journalEntries := [sampleEntry 1 1 10, sampleEntry 2 2 20],
    nextEntryId := 3 }

/-- `subBank` switched inactive. -/
def inactiveBank : SubledgerAccount := { subBank with isActive := false }

/-- `baseStore` with the asset account switched inactive and one 100 USD
entry between the two accounts. -/
def inactiveStore : Store :=
  { baseStore with
    subledgerAccounts := [inactiveBank, subVendor],
    journalEntries := [sampleEntry 1 1 100], nextEntryId := 2 }

/-- `baseStore` with a single entry of amount 10 (used for the currency
rate-update claim). -/
def rateStore : Store :=
  { baseStore with
    journalEntries := [sampleEntry 1 1 10], nextEntryId := 2 }

/-- A create request for 10.005 USD (the half-way rounding input). -/
def halfUpInput : CreateJEInput :=
  { entryDate := 1, amount := 10005/1000, debitAccountId := 1,
    creditAccountId := 2, description := "half" }

/-- The entry stored for `halfUpInput` on `baseStore`. -/
def halfUpEntry : JournalEntry :=
  { id := 1, entryDate := 1, amount := 10005/1000, currencyCode := "USD",
    amountInUSD := 1001/100, debitAccountId := 1, creditAccountId := 2,
    description := "half", category := none, comment := none }

/-- `baseStore` after storing `halfUpEntry`. -/
def halfUpStore : Store :=
  { baseStore with journalEntries := [halfUpEntry], nextEntryId := 2 }

/-- A create request whose currency does not exist *and* whose debit
account does not exist (for the validation-order claim). -/
def orderInput : CreateJEInput :=
  { entryDate := 1, amount := 10, currencyCode := "EUR", debitAccountId := 5,
    creditAccountId := 6, description := "x" }

/-- A currency update that only changes the exchange rate to 2. -/
def rateUpdate : UpdateCurrencyInput := { exchangeRate := some 2 }

/-- A journal-entry update that only changes the amount to 5. -/
def amountUpdate : UpdateJEInput := { amount := some 5 }

/-- The stored entry of `rateStore` after `amountUpdate`. -/
def amountUpdatedEntry : JournalEntry :=
  { sampleEntry 1 1 10 with amount := 5, amountInUSD := 5 }

/-- `rateStore` after applying `amountUpdate` to entry 1. -/
def amountUpdatedStore : Store :=
  { rateStore with journalEntries := [amountUpdatedEntry] }

/-- A default currency that nothing references. -/
def defaultEUR : Currency :=
  { code := "EUR", name := "Euro", symbol := "E", exchangeRate := 1,
    isDefault := true }

/-- A store containing only `defaultEUR`: no subledger account and no
journal entry references it. -/
def defaultOnlyStore : Store :=
  { Store.initial with currencies := [defaultEUR] }

/-- A CSV record that validates against `baseStore`. -/
def rowOK : CsvRecord :=
  { date := some 5, debitAccount := "1001", creditAccount := "2001",
    amount := some 7 }

/-- A CSV record whose debit account number resolves to nothing. -/
def rowBad : CsvRecord :=
  { date := some 5, debitAccount := "9999", creditAccount := "2001",
    amount := some 7 }

/-- The single-default invariant of the `currencies` table (§3). -/
def atMostOneDefault (s : Store) : Prop :=
  s.currencies.countP (fun c => c.isDefault) ≤ 1

/-- A create request for a new default currency (lower-case code, which
zod upper-cases). -/
def gbpInput : CreateCurrencyInput :=
  { code := "gbp", name := "Pound", symbol := "P", isDefault := true }

/-! # Theorems -/

/-- **C10.** Deleting the currency whose stored row has
`isDefault = true` always fails (HTTP 400, `Cannot delete the default
currency`) and leaves the store unchanged; the route never reaches a
referential check, so this holds in particular when no subledger account
and no journal entry references the currency. -/
theorem deleteCurrency_default_always_fails (s : Store) (code : String)
    (c : Currency) (hc : lookupCurrency s (jsToUpperCase code) = some c)
    (hd : c.isDefault = true) :
    deleteCurrency s code = (.error .cannotDeleteDefault, s) := by
  unfold deleteCurrency
  simp only [hc, hd, if_true]

/-- Witness for C10: a store whose only content is one default currency —
no subledger account, no journal entry — still refuses the delete. -/
theorem deleteCurrency_default_always_fails_witness :
    defaultOnlyStore.subledgerAccounts = [] ∧
    defaultOnlyStore.journalEntries = [] ∧
    deleteCurrency defaultOnlyStore "EUR" =
      (.error .cannotDeleteDefault, defaultOnlyStore) :=
  ⟨rfl, rfl,
   deleteCurrency_default_always_fails defaultOnlyStore "EUR" defaultEUR
     (by decide) (by decide)⟩

/-- **C3** (code bug). On a ledger of two debits of 10 (day 1) and 20
(day 2) against an asset account, the route annotates the chronological
rows with the balances `[30, 20]` — the running balance of a
*reverse*-chronological replay — while the chronological replay the spec
describes yields `[10, 30]`; moreover the last returned row's balance
(20) disagrees with the route's own `finalBalance` (30). -/
theorem accountLedger_balance_annotation_misordered :
    ((accountLedger ledgerStore 1 none none).map
      (fun r => (r.entries.map (fun l => l.balance), r.finalBalance))) =
      some ([30, 20], 30) ∧
    specRunningBalances AccountType.asset 1 ledgerStore.journalEntries =
      [10, 30] ∧
    ([30, 20] : List ℚ) ≠ [10, 30] ∧
    ((accountLedger ledgerStore 1 none none).map
      (fun r => (r.entries.map (fun l => l.balance)).getLast?)) =
      some (some 20) ∧
    some (20 : ℚ) ≠ some (30 : ℚ) := by
  norm_num [accountLedger, lookupGLById, ledgerStore, baseStore, sampleEntry,
    subBank, subVendor, glAsset, glPayable, orderByDateDesc, insertByDateDesc,
    ledgerStep, inRange, specRunningBalances, orderByDateAsc, insertByDateAsc,
    replayBalances, contrib, AccountType.isDebitNormal, usd]

/-- **C4** (counterexample). An inactive subledger account whose GL type
is not Opening-Balance is *excluded* from `calculateBalances` — report
membership does depend on the active flag, contrary to the claim. -/
theorem calculateBalances_drops_inactive_account :
    inactiveBank ∈ inactiveStore.subledgerAccounts ∧
    inactiveBank.isActive = false ∧
    lookupGLById inactiveStore inactiveBank.glAccountId = some glAsset ∧
    glAsset.type ≠ AccountType.openingBalance ∧
    (calculateBalances inactiveStore none none).map (fun b => b.accountId) =
      [2] ∧
    ¬ (1 : Int) ∈ [(2 : Int)] := by
  norm_num [calculateBalances, reportAccounts, lookupGLById, inactiveStore,
    baseStore, inactiveBank, subBank, subVendor, glAsset, glPayable,
    sampleEntry, inRange, accountBalance, contrib, AccountType.isDebitNormal,
    List.filterMap_cons, List.find?]
  decide

/-- **C4** (amended).  A subledger account contributes a row to
`calculateBalances` (used by every report view) exactly when it is
**active** and its GL account's type is not Opening-Balance; no further
filtering is applied.  (The claim's "membership does not depend on the
active flag" fails; see the counterexample.) -/
theorem calculateBalances_membership (s : Store) (startC endC : Option Int)
    (a : SubledgerAccount) (g : GLAccount)
    (hnd : (s.subledgerAccounts.map (fun x => x.id)).Nodup)
    (ha : a ∈ s.subledgerAccounts)
    (hg : lookupGLById s a.glAccountId = some g) :
    (a.isActive = true ∧ g.type ≠ AccountType.openingBalance) ↔
      a.id ∈ (calculateBalances s startC endC).map (fun b => b.accountId) := by
  have hmap : (calculateBalances s startC endC).map (fun b => b.accountId) =
      (reportAccounts s).map (fun p => p.1.id) := by
    simp [calculateBalances, List.map_map]
  rw [hmap]
  constructor
  · rintro ⟨hact, htype⟩
    refine List.mem_map.mpr ⟨(a, g), ?_, rfl⟩
    refine List.mem_filterMap.mpr ⟨a, ha, ?_⟩
    rw [hg]
    simp [hact, htype]
  · intro hmem
    obtain ⟨p, hp, hpid⟩ := List.mem_map.mp hmem
    obtain ⟨a2, ha2, hfa2⟩ := List.mem_filterMap.mp hp
    cases hl : lookupGLById s a2.glAccountId with
    | none => rw [hl] at hfa2; simp at hfa2
    | some g2 =>
      rw [hl] at hfa2
      by_cases hcond : a2.isActive = true ∧ g2.type ≠ AccountType.openingBalance
      · have hpe : (a2, g2) = p := by
          simpa [hcond.1, hcond.2] using hfa2
        have hid : a2.id = a.id := by rw [← hpe] at hpid; exact hpid
        have ha2a : a2 = a := List.inj_on_of_nodup_map hnd ha2 ha hid
        subst ha2a
        rw [hl] at hg
        cases hg
        exact hcond
      · simp [hcond] at hfa2

/-- Witness for C4: the active asset account of `baseStore` satisfies the
membership condition and indeed appears in the report's account set. -/
theorem calculateBalances_membership_witness :
    (subBank.isActive = true ∧ glAsset.type ≠ AccountType.openingBalance) ∧
    subBank.id ∈ (calculateBalances baseStore none none).map
      (fun b => b.accountId) :=
  ⟨⟨rfl, by decide⟩,
   (calculateBalances_membership baseStore none none subBank glAsset
      (by decide) (by decide) (by decide)).mp ⟨rfl, by decide⟩⟩

/-- **C6** (amended).  `POST /api/journal-entries` runs its checks in
this order: the zod schema (which includes amount > 0 and, via
`.refine`, debit ≠ credit), then debit-account existence, then
credit-account existence, then currency existence — each conjunct states
that the listed error is returned exactly when all earlier checks pass
and that check fails.  (The claim's order — currency existence second —
fails; see the counterexample.) -/
theorem createJournalEntry_check_order (s : Store) (i : CreateJEInput) :
    (createSchemaOk i = false →
      createJournalEntry s i = .error .schemaViolation) ∧
    (createSchemaOk i = true → i.debitAccountId = i.creditAccountId →
      createJournalEntry s i = .error .debitEqualsCredit) ∧
    (createSchemaOk i = true → i.debitAccountId ≠ i.creditAccountId →
      lookupSubledgerById s i.debitAccountId = none →
      createJournalEntry s i = .error (.debitNotFound i.debitAccountId)) ∧
    (createSchemaOk i = true → i.debitAccountId ≠ i.creditAccountId →
      ∀ d, lookupSubledgerById s i.debitAccountId = some d →
        lookupSubledgerById s i.creditAccountId = none →
        createJournalEntry s i = .error (.creditNotFound i.creditAccountId)) ∧
    (createSchemaOk i = true → i.debitAccountId ≠ i.creditAccountId →
      ∀ d c, lookupSubledgerById s i.debitAccountId = some d →
        lookupSubledgerById s i.creditAccountId = some c →
        lookupCurrency s i.currencyCode = none →
        createJournalEntry s i = .error (.currencyNotFound i.currencyCode)) := by
  refine ⟨?_, ?_, ?_, ?_, ?_⟩
  · intro h1
    unfold createJournalEntry
    simp [h1]
  · intro h1 h2
    unfold createJournalEntry
    simp [h1, h2]
  · intro h1 h2 h3
    unfold createJournalEntry
    simp [h1, h2, h3]
  · intro h1 h2 d h3 h4
    unfold createJournalEntry
    simp [h1, h2, h3, h4]
  · intro h1 h2 d c h3 h4 h5
    unfold createJournalEntry
    simp [h1, h2, h3, h4, h5]

/-- **C6** (counterexample).  For an input whose amount is valid but
whose currency does not exist *and* whose debit account does not exist,
the route reports the debit-account error, not the currency error the
claim's ordering (currency before accounts) would require. -/
theorem createJournalEntry_claimed_order_counterexample :
    (0 : ℚ) < orderInput.amount ∧
    lookupCurrency Store.initial orderInput.currencyCode = none ∧
    createJournalEntry Store.initial orderInput =
      .error (.debitNotFound 5) ∧
    JEError.debitNotFound 5 ≠ JEError.currencyNotFound "EUR" := by
  refine ⟨by decide, by decide, by decide, by decide⟩

/-- Witness for C6's amended ordering: applying the debit-not-found
conjunct at the concrete counterexample input. -/
theorem createJournalEntry_check_order_witness :
    createJournalEntry Store.initial orderInput =
      .error (.debitNotFound orderInput.debitAccountId) :=
  (createJournalEntry_check_order Store.initial orderInput).2.2.1
    (by decide) (by decide) (by decide)

/-- **C8.** `amountInUSD` is computed once, at write time, as
`round2(amount × rate)` with `Math.round`'s half-up rule (half-way
cases toward positive infinity); reads return the stored row unchanged;
and for amount 10.005 at rate 1.00 the stored value is 10.01. -/
theorem amountInUSD_write_once :
    (∀ s i st e cur, lookupCurrency s i.currencyCode = some cur →
      createJournalEntry s i = .ok (st, e) →
      e.amountInUSD = round2 (i.amount * cur.exchangeRate) ∧
        e ∈ st.journalEntries) ∧
    (∀ s id e, getJournalEntry s id = some e → e ∈ s.journalEntries) ∧
    round2 ((10005 : ℚ) / 1000 * 1) = 1001 / 100 := by
  refine ⟨?_, ?_, by norm_num [round2, mathRound]⟩
  · intro s i st e cur hcur h
    unfold createJournalEntry at h
    by_cases h1 : createSchemaOk i = true
    swap
    · simp [h1] at h
    by_cases h2 : i.debitAccountId = i.creditAccountId
    · simp [h1, h2] at h
    simp only [h1, h2, not_true, Bool.true_eq_false, ite_false, if_neg,
      not_false_iff, ite_true] at h
    cases hd : lookupSubledgerById s i.debitAccountId with
    | none => rw [hd] at h; simp at h
    | some d =>
      rw [hd] at h
      cases hc : lookupSubledgerById s i.creditAccountId with
      | none => rw [hc] at h; simp at h
      | some c =>
        rw [hc, hcur] at h
        rw [Except.ok.injEq, Prod.mk.injEq] at h
        obtain ⟨hst, he⟩ := h
        subst hst
        subst he
        constructor
        · rfl
        · exact List.mem_append_right _ (List.mem_singleton.mpr rfl)
  · intro s id e h
    exact List.mem_of_find?_eq_some h

/-- Witness for C8: creating an entry of 10.005 USD at rate 1 stores
`amountInUSD = 10.01`. -/
theorem amountInUSD_write_once_witness :
    createJournalEntry baseStore halfUpInput = .ok (halfUpStore, halfUpEntry) ∧
    halfUpEntry.amountInUSD = round2 (halfUpInput.amount * usd.exchangeRate) ∧
    halfUpEntry.amountInUSD = 1001 / 100 := by
  have hcre : createJournalEntry baseStore halfUpInput =
      .ok (halfUpStore, halfUpEntry) := by
    have hamt : decide ((0 : ℚ) < halfUpInput.amount) = true := by
      simp only [decide_eq_true_eq]
      norm_num [halfUpInput]
    have hs : createSchemaOk halfUpInput = true := by
      unfold createSchemaOk
      rw [hamt]
      decide
    have hne : ¬ (halfUpInput.debitAccountId = halfUpInput.creditAccountId) :=
      by decide
    have hd : lookupSubledgerById baseStore halfUpInput.debitAccountId =
        some subBank := by decide
    have hc : lookupSubledgerById baseStore halfUpInput.creditAccountId =
        some subVendor := by decide
    have hcur : lookupCurrency baseStore halfUpInput.currencyCode = some usd :=
      by decide
    simp [createJournalEntry, hs, hne, hd, hc, hcur, Store.insertEntry]
    norm_num [halfUpStore, halfUpEntry, baseStore, halfUpInput, usd, round2,
      mathRound]
  refine ⟨hcre, ?_, by norm_num [halfUpEntry]⟩
  exact (amountInUSD_write_once.1 baseStore halfUpInput halfUpStore halfUpEntry
    usd (by decide) hcre).1

/-- **C5** (amended).  A currency update (`PUT /api/currencies/:code`)
never touches stored journal entries — in particular a rate change does
*not* recompute their `amountInUSD`; the recomputation happens only in
`PUT /api/journal-entries/:id` when the update provides a new amount or
currency, using `round2(effectiveAmount × rate(effectiveCurrency))`. -/
theorem amountInUSD_recompute_only_on_entry_update :
    (∀ s code i, (updateCurrency s code i).2.journalEntries =
      s.journalEntries) ∧
    (∀ s id i st e existing cur,
      getJournalEntry s id = some existing →
      (i.amount.isSome || i.currencyCode.isSome) = true →
      lookupCurrency s (i.currencyCode.getD existing.currencyCode) = some cur →
      updateJournalEntry s id i = .ok (st, e) →
      e.amountInUSD =
        round2 ((i.amount.getD existing.amount) * cur.exchangeRate)) := by
  constructor
  · intro s code i
    unfold updateCurrency
    repeat' split
    all_goals rfl
  · intro s id i st e existing cur hex hsome hcur hupd
    unfold updateJournalEntry at hupd
    by_cases h1 : updateSchemaOk i = true
    swap
    · simp [h1] at hupd
    rw [hex] at hupd
    simp only [h1, not_true, Bool.true_eq_false, ite_true, ite_false,
      not_false_iff] at hupd
    by_cases h2 : i.debitAccountId.isSome ∧ i.creditAccountId.isSome ∧
        i.debitAccountId = i.creditAccountId
    · simp [h2] at hupd
    rw [if_neg h2] at hupd
    by_cases h3 : i.debitAccountId.isSome ∧
        lookupSubledgerById s (i.debitAccountId.getD 0) = none
    · simp [h3] at hupd
    rw [if_neg h3] at hupd
    by_cases h4 : i.creditAccountId.isSome ∧
        lookupSubledgerById s (i.creditAccountId.getD 0) = none
    · simp [h4] at hupd
    rw [if_neg h4] at hupd
    rw [hsome] at hupd
    simp only [ite_true] at hupd
    rw [hcur] at hupd
    rw [Except.ok.injEq, Prod.mk.injEq] at hupd
    obtain ⟨hst, he⟩ := hupd
    subst he
    rfl

/-- **C5** (counterexample).  Updating the USD rate from 1 to 2 succeeds
but leaves the stored entry's `amountInUSD` at 10, not the
`round2(10 × 2) = 20` the claim requires. -/
theorem currencyRateUpdate_no_recompute_counterexample :
    (updateCurrency rateStore "USD" rateUpdate).1 =
      .ok { usd with exchangeRate := 2 } ∧
    (updateCurrency rateStore "USD" rateUpdate).2.journalEntries.map
      (fun e => e.amountInUSD) = [10] ∧
    round2 (10 * 2) = 20 ∧
    (10 : ℚ) ≠ 20 := by
  refine ⟨by decide, by decide, by norm_num [round2, mathRound], by norm_num⟩

/-- Witness for C5's amended rule: updating entry 1's amount to 5 at
rate 1 recomputes `amountInUSD` to `round2(5 × 1)`. -/
theorem amountInUSD_recompute_only_on_entry_update_witness :
    updateJournalEntry rateStore 1 amountUpdate =
      .ok (amountUpdatedStore, amountUpdatedEntry) ∧
    amountUpdatedEntry.amountInUSD =
      round2 ((amountUpdate.amount.getD (sampleEntry 1 1 10).amount) *
        usd.exchangeRate) := by
  have hupd : updateJournalEntry rateStore 1 amountUpdate =
      .ok (amountUpdatedStore, amountUpdatedEntry) := by
    norm_num [updateJournalEntry, updateSchemaOk, amountUpdate, rateStore,
      baseStore, getJournalEntry, lookupCurrency, usd, sampleEntry,
      applyJEUpdate, amountUpdatedStore, amountUpdatedEntry, round2, mathRound,
      List.find?]
  refine ⟨hupd, ?_⟩
  exact amountInUSD_recompute_only_on_entry_update.2 rateStore 1 amountUpdate
    amountUpdatedStore amountUpdatedEntry (sampleEntry 1 1 10) usd
    (by decide) (by decide) (by decide) hupd

/-- Every row of `clearDefaults l` has `isDefault = false`. -/
theorem clearDefaults_isDefault (l : List Currency) (c : Currency)
    (hc : c ∈ clearDefaults l) : c.isDefault = false := by
  obtain ⟨x, hx, hfx⟩ := List.mem_map.mp (by simpa [clearDefaults] using hc)
  subst hfx
  by_cases h : x.isDefault = true <;> simp [h]

/-- `clearDefaults` zeroes the default count. -/
theorem countP_clearDefaults (l : List Currency) :
    (clearDefaults l).countP (fun c => c.isDefault) = 0 :=
  List.countP_eq_zero.mpr
    (fun c hc => by simp [clearDefaults_isDefault l c hc])

/-- A list with `Nodup` codes has at most one row with a given code. -/
theorem countP_code_eq_le_one (l : List Currency) (key : String)
    (h : (l.map (fun c => c.code)).Nodup) :
    l.countP (fun c => c.code = key) ≤ 1 := by
  induction l with
  | nil => simp
  | cons c t ih =>
    rw [List.map_cons, List.nodup_cons] at h
    rw [List.countP_cons]
    by_cases hc : c.code = key
    · have hz : t.countP (fun x => x.code = key) = 0 :=
        List.countP_eq_zero.mpr (fun x hx hpx =>
          h.1 (List.mem_map.mpr ⟨x, hx, by
            have hx2 := of_decide_eq_true hpx
            rw [hx2, hc]⟩))
      simp [hz, hc]
    · simp [hc]
      exact ih h.2

/-- The update write of `PUT /api/currencies/:code` preserves the
invariant: with `isDefault = true` it first clears every default and can
then set at most the (unique) matching row; otherwise it never raises
the default count. -/
theorem atMostOneDefault_updateCurrencyStore (s : Store) (code : String)
    (i : UpdateCurrencyInput)
    (h : atMostOneDefault s)
    (hnd : (s.currencies.map (fun c => c.code)).Nodup) :
    atMostOneDefault (updateCurrencyStore s code i) := by
  unfold atMostOneDefault updateCurrencyStore
  rw [List.countP_map]
  by_cases hdef : i.isDefault = some true
  · rw [if_pos hdef]
    have hcongr : (clearDefaults s.currencies).countP
        ((fun c => c.isDefault) ∘ (fun c =>
          if c.code = jsToUpperCase code then applyCurrencyUpdate c i else c)) =
        (clearDefaults s.currencies).countP
          (fun c => c.code = jsToUpperCase code) := by
      apply List.countP_congr
      intro x hx
      by_cases hxc : x.code = jsToUpperCase code
      · simp [hxc, applyCurrencyUpdate, hdef]
      · simp [hxc, clearDefaults_isDefault s.currencies x hx]
    rw [hcongr]
    have hcodes : (clearDefaults s.currencies).countP
        (fun c => c.code = jsToUpperCase code) =
        s.currencies.countP (fun c => c.code = jsToUpperCase code) := by
      unfold clearDefaults
      rw [List.countP_map]
      apply List.countP_congr
      intro x hx
      by_cases hxd : x.isDefault = true <;> simp [hxd]
    rw [hcodes]
    exact countP_code_eq_le_one s.currencies (jsToUpperCase code) hnd
  · rw [if_neg hdef]
    refine le_trans (List.countP_mono_left ?_) h
    intro x hx hpx
    by_cases hxc : x.code = jsToUpperCase code
    · simp only [Function.comp, hxc, if_pos, ite_true] at hpx
      cases hb : i.isDefault with
      | none => simpa [applyCurrencyUpdate, hb] using hpx
      | some b =>
        cases b with
        | true => exact absurd hb hdef
        | false => simp [applyCurrencyUpdate, hb] at hpx
    · simpa [Function.comp, hxc] using hpx

/-- **C7.** At most one currency is marked default: the invariant holds
in the initial store and is preserved by the create, update and delete
currency routes (update also needs the primary-key uniqueness of codes);
and a create or successful update that sets `isDefault = true` leaves
the target as the only possible default — clearing every other row in
the same operation. -/
theorem currency_single_default_invariant :
    atMostOneDefault Store.initial ∧
    (∀ s i, atMostOneDefault s → atMostOneDefault (createCurrency s i).2) ∧
    (∀ s code i, atMostOneDefault s →
      (s.currencies.map (fun c => c.code)).Nodup →
      atMostOneDefault (updateCurrency s code i).2) ∧
    (∀ s code, atMostOneDefault s →
      atMostOneDefault (deleteCurrency s code).2) ∧
    (∀ s i c, createCurrencySchemaOk i = true → i.isDefault = true →
      c ∈ (createCurrency s i).2.currencies → c.isDefault = true →
      c.code = jsToUpperCase i.code) ∧
    (∀ s code i c, updateCurrencySchemaOk i = true →
      (lookupCurrency s (jsToUpperCase code)).isSome = true →
      i.isDefault = some true →
      c ∈ (updateCurrency s code i).2.currencies → c.isDefault = true →
      c.code = jsToUpperCase code) := by
  have hcleared : ∀ s i, atMostOneDefault s →
      atMostOneDefault (createCurrencyCleared s i) := by
    intro s i h
    unfold createCurrencyCleared
    split
    · have h0 := countP_clearDefaults s.currencies
      unfold atMostOneDefault
      simp [h0]
    · exact h
  refine ⟨?_, ?_, ?_, ?_, ?_, ?_⟩
  · unfold atMostOneDefault Store.initial
    simp
  · intro s i h
    unfold createCurrency
    split
    · exact h
    · split
      · exact hcleared s i h
      · unfold atMostOneDefault
        rw [List.countP_append]
        by_cases hd : i.isDefault = true
        · have h0 : (createCurrencyCleared s i).currencies.countP
              (fun c => c.isDefault) = 0 := by
            unfold createCurrencyCleared
            rw [if_pos hd]
            exact countP_clearDefaults s.currencies
          simp [h0, List.countP_cons, mkCurrencyRow, hd]
        · have h1 : (createCurrencyCleared s i).currencies.countP
              (fun c => c.isDefault) ≤ 1 := hcleared s i h
          have hdf : i.isDefault = false := by
            cases hb : i.isDefault
            · rfl
            · exact absurd hb hd
          have h2 : ([mkCurrencyRow i].countP (fun c => c.isDefault)) = 0 := by
            simp [List.countP_cons, mkCurrencyRow, hdf]
          omega
  · intro s code i h hnd
    unfold updateCurrency
    split
    · exact h
    · split
      · exact h
      · split
        · exact atMostOneDefault_updateCurrencyStore s code i h hnd
        · exact atMostOneDefault_updateCurrencyStore s code i h hnd
  · intro s code h
    unfold deleteCurrency
    split
    · exact h
    · split
      · exact h
      · exact le_trans (List.Sublist.countP_le _ (List.filter_sublist _)) h
  · intro s i c hschema hdef hc hcdef
    unfold createCurrency at hc
    rw [if_neg (by simp [hschema])] at hc
    have hmem : c ∈ (createCurrencyCleared s i).currencies →
        c.code = jsToUpperCase i.code := by
      intro hmem
      unfold createCurrencyCleared at hmem
      rw [if_pos hdef] at hmem
      exact absurd hcdef (by simp [clearDefaults_isDefault s.currencies c hmem])
    split at hc
    · exact hmem hc
    · rcases List.mem_append.mp hc with h1 | h2
      · exact hmem h1
      · rw [List.mem_singleton.mp h2]
        rfl
  · intro s code i c hschema hlook hdef hc hcdef
    obtain ⟨c0, hc0⟩ := Option.isSome_iff_exists.mp hlook
    unfold updateCurrency at hc
    rw [if_neg (by simp [hschema]), hc0] at hc
    have hmem : c ∈ (updateCurrencyStore s code i).currencies := by
      cases h2 : lookupCurrency (updateCurrencyStore s code i)
          (jsToUpperCase code) with
      | none => rw [h2] at hc; exact hc
      | some c2 => rw [h2] at hc; exact hc
    unfold updateCurrencyStore at hmem
    rw [if_pos hdef] at hmem
    obtain ⟨x, hx, hfx⟩ := List.mem_map.mp hmem
    by_cases hxc : x.code = jsToUpperCase code
    · rw [if_pos hxc] at hfx
      rw [← hfx]
      exact hxc
    · rw [if_neg hxc] at hfx
      subst hfx
      exact absurd hcdef
        (by simp [clearDefaults_isDefault s.currencies x hx])

/-- Witness for C7: creating a new default currency `gbp` on a store
whose default is EUR upper-cases the code, clears the old default and
leaves exactly one default. -/
theorem currency_single_default_invariant_witness :
    atMostOneDefault defaultOnlyStore ∧
    atMostOneDefault (createCurrency defaultOnlyStore gbpInput).2 ∧
    ((createCurrency defaultOnlyStore gbpInput).2.currencies.map
      (fun c => (c.code, c.isDefault))) = [("EUR", false), ("GBP", true)] :=
  ⟨by unfold atMostOneDefault; decide,
   currency_single_default_invariant.2.1 defaultOnlyStore gbpInput
     (by unfold atMostOneDefault; decide),
   by decide⟩

/-- The validation phase, characterised: it validates every record
against the *unchanged* store, keeps the validated rows in input order,
counts the failures, and labels each failure with its row. -/
theorem importPhase1_spec (s : Store) (rs : List CsvRecord) : ∀ (i : Nat),
    importPhase1 s i rs =
      (rs.filterMap (fun r => (validateRow s r).toOption),
       rs.countP (rowFails s),
       (rs.enumFrom i).filterMap (rowErrorLabel s)) := by
  induction rs with
  | nil => intro i; rfl
  | cons r t ih =>
    intro i
    unfold importPhase1
    rw [ih (i + 1)]
    cases hv : validateRow s r with
    | ok v =>
      simp [List.countP_cons, rowFails, hv, List.enumFrom, rowErrorLabel,
        Except.toOption]
    | error m =>
      simp [List.countP_cons, rowFails, hv, List.enumFrom, rowErrorLabel,
        Except.toOption]

/-- The commit phase appends one journal entry per validated row, in
order, with sequentially assigned ids. -/
theorem importPhase2_spec (vs : List ValidatedEntry) : ∀ (s : Store),
    (importPhase2 s vs).journalEntries =
      s.journalEntries ++ buildRows s.nextEntryId vs := by
  induction vs with
  | nil => intro s; simp [importPhase2, buildRows]
  | cons v t ih =>
    intro s
    unfold importPhase2
    rw [List.foldl_cons]
    have h2 := ih (insertValidated s v)
    unfold importPhase2 at h2
    rw [h2]
    simp [insertValidated, Store.insertEntry, buildRows]

/-- When every record validates, the validated list has one element per
record. -/
theorem validated_length_of_all_ok (s : Store) (rs : List CsvRecord)
    (h : ∀ r ∈ rs, rowFails s r = false) :
    (rs.filterMap (fun r => (validateRow s r).toOption)).length = rs.length := by
  induction rs with
  | nil => rfl
  | cons r t ih =>
    have hr := h r (List.mem_cons_self r t)
    rw [List.filterMap_cons]
    cases hv : validateRow s r with
    | ok v =>
      simp only [hv, Except.toOption, List.length_cons]
      have iht := ih (fun x hx => h x (List.mem_cons_of_mem r hx))
      simp only [Except.toOption] at iht
      omega
    | error m => rw [rowFails, hv] at hr; simp at hr

/-- **C1.** Batch import is all-or-nothing: if any row fails validation,
the store is unchanged (zero new journal entries) and the result reports
zero succeeded rows, the exact number of failing rows, and one error per
failing row labelled with that row (`Row ${index + 2}`, counting the
header line); if every row passes, every row is committed as a journal
entry, in input order, with sequential ids. -/
theorem importCSV_atomic (s : Store) (records : List CsvRecord) :
    ((∃ r ∈ records, rowFails s r = true) →
      (importCSV s records).2 = s ∧
      (importCSV s records).1.success = 0 ∧
      (importCSV s records).1.failed = records.countP (rowFails s) ∧
      (importCSV s records).1.errors =
        (records.enumFrom 0).filterMap (rowErrorLabel s)) ∧
    ((∀ r ∈ records, rowFails s r = false) →
      (importCSV s records).1.success = records.length ∧
      (importCSV s records).1.failed = 0 ∧
      (importCSV s records).1.errors = [] ∧
      (importCSV s records).2.journalEntries = s.journalEntries ++
        buildRows s.nextEntryId
          (records.filterMap (fun r => (validateRow s r).toOption))) := by
  have hp := importPhase1_spec s records 0
  constructor
  · intro hex
    have hpos : 0 < records.countP (rowFails s) := List.countP_pos_iff.mpr hex
    unfold importCSV
    rw [hp]
    rw [if_pos (by simpa using hpos)]
    exact ⟨rfl, rfl, rfl, rfl⟩
  · intro hall
    have hz : records.countP (rowFails s) = 0 :=
      List.countP_eq_zero.mpr (fun r hr => by rw [hall r hr]; simp)
    unfold importCSV
    rw [hp]
    rw [if_neg (by simp [hz])]
    refine ⟨validated_length_of_all_ok s records hall, rfl, rfl, ?_⟩
    exact importPhase2_spec _ s

/-- Witness for C1: importing `[rowOK, rowBad]` into `baseStore` — the
second row's debit account number resolves to nothing — commits nothing
and reports zero successes. -/
theorem importCSV_atomic_witness :
    rowFails baseStore rowBad = true ∧
    (importCSV baseStore [rowOK, rowBad]).2 = baseStore ∧
    (importCSV baseStore [rowOK, rowBad]).1.success = 0 ∧
    (importCSV baseStore [rowOK, rowBad]).1.failed = 1 := by
  have h := (importCSV_atomic baseStore [rowOK, rowBad]).1
    ⟨rowBad, by decide, by decide⟩
  refine ⟨by decide, h.1, h.2.1, ?_⟩
  rw [h.2.2.1]
  decide

/-- Folding `+ f x` over a list from `init` is `init` plus the sum. -/
theorem foldl_add_eq_sum {α : Type} (l : List α) (f : α → ℚ) : ∀ init : ℚ,
    l.foldl (fun b x => b + f x) init = init + (l.map f).sum := by
  induction l with
  | nil => intro init; simp
  | cons x t ih =>
    intro init
    rw [List.foldl_cons, ih (init + f x), List.map_cons, List.sum_cons]
    ring

/-- `totalBalance` as a mapped sum. -/
theorem totalBalance_eq_sum (l : List AccountBalanceRow) :
    totalBalance l = (l.map (fun b => b.balance)).sum := by
  simpa using foldl_add_eq_sum l (fun b => b.balance) 0

/-- `accountBalance` as a mapped sum of per-entry contributions. -/
theorem accountBalance_eq_sum (E : List JournalEntry) (t : AccountType)
    (accId : Int) :
    accountBalance E t accId = (E.map (contrib t accId)).sum := by
  simpa using foldl_add_eq_sum E (contrib t accId) 0

/-- Exchange of a double mapped sum. -/
theorem sum_map_swap {α β : Type} (l1 : List α) (l2 : List β)
    (f : α → β → ℚ) :
    (l1.map (fun a => (l2.map (f a)).sum)).sum =
      (l2.map (fun b => (l1.map (fun a => f a b)).sum)).sum := by
  induction l1 with
  | nil => simp
  | cons a t ih =>
    rw [List.map_cons, List.sum_cons, ih, ← List.sum_map_add]
    apply congrArg
    apply List.map_congr_left
    intro b _
    rw [List.map_cons, List.sum_cons]

/-- Difference of two mapped sums as one mapped sum. -/
theorem sum_map_sub {α : Type} (l : List α) (f g : α → ℚ) :
    (l.map (fun x => f x - g x)).sum = (l.map f).sum - (l.map g).sum := by
  induction l with
  | nil => simp
  | cons a t ih =>
    simp [ih]
    ring

/-- A filtered balance total as a guarded sum over the whole list. -/
theorem totalBalance_filter_eq (l : List AccountBalanceRow)
    (p : AccountBalanceRow → Bool) :
    totalBalance (l.filter p) =
      (l.map (fun b => if p b then b.balance else 0)).sum := by
  rw [totalBalance_eq_sum]
  induction l with
  | nil => rfl
  | cons b t ih =>
    rw [List.filter_cons, List.map_cons, List.sum_cons]
    by_cases hp : p b = true
    · rw [if_pos hp, List.map_cons, List.sum_cons, if_pos hp, ih]
    · rw [if_neg hp, if_neg hp, ih, zero_add]

/-- The balance-sheet difference as a weighted sum over all report rows:
each row enters with the coefficient of its account type. -/
theorem bs_diff_eq_weighted (l : List AccountBalanceRow)
    (h : ∀ b ∈ l, b.glAccountType ≠ AccountType.openingBalance) :
    totalBalance (l.filter (fun b => b.glAccountType.isAssetGroup)) -
      (totalBalance (l.filter
          (fun b => b.glAccountType = AccountType.accountsPayable)) +
       totalBalance (l.filter (fun b => b.glAccountType = AccountType.equity)) +
       (totalBalance (l.filter (fun b => b.glAccountType = AccountType.profit)) -
        totalBalance (l.filter (fun b => b.glAccountType = AccountType.loss)))) =
    (l.map (fun b => typeWeight b.glAccountType * b.balance)).sum := by
  rw [totalBalance_filter_eq l (fun b => b.glAccountType.isAssetGroup),
    totalBalance_filter_eq l (fun b =>
      b.glAccountType = AccountType.accountsPayable),
    totalBalance_filter_eq l (fun b => b.glAccountType = AccountType.equity),
    totalBalance_filter_eq l (fun b => b.glAccountType = AccountType.profit),
    totalBalance_filter_eq l (fun b => b.glAccountType = AccountType.loss)]
  rw [← sum_map_sub, ← List.sum_map_add, ← List.sum_map_add, ← sum_map_sub]
  apply congrArg
  apply List.map_congr_left
  intro b hb
  cases hbt : b.glAccountType <;>
    first
      | (exact absurd hbt (h b hb))
      | (simp [hbt, AccountType.isAssetGroup, typeWeight])

/-- Unpacking membership in the report-account join. -/
theorem reportAccounts_mem (s : Store) (p : SubledgerAccount × GLAccount)
    (hp : p ∈ reportAccounts s) :
    p.1 ∈ s.subledgerAccounts ∧ lookupGLById s p.1.glAccountId = some p.2 ∧
      p.1.isActive = true ∧ p.2.type ≠ AccountType.openingBalance := by
  obtain ⟨a, ha, hfa⟩ := List.mem_filterMap.mp hp
  cases hl : lookupGLById s a.glAccountId with
  | none => rw [hl] at hfa; simp at hfa
  | some g =>
    rw [hl] at hfa
    by_cases hcond : a.isActive = true ∧ g.type ≠ AccountType.openingBalance
    · have hpe : (a, g) = p := by simpa [hcond.1, hcond.2] using hfa
      rw [← hpe]
      exact ⟨ha, by rw [hl], hcond.1, hcond.2⟩
    · simp [hcond] at hfa

/-- A `filterMap` that returns each element or nothing is a sublist. -/
theorem filterMap_id_sublist {α : Type} (g : α → Option α)
    (h : ∀ a, g a = none ∨ g a = some a) :
    ∀ l : List α, (l.filterMap g).Sublist l := by
  intro l
  induction l with
  | nil => simp
  | cons a t ih =>
    rw [List.filterMap_cons]
    rcases h a with h1 | h1
    · rw [h1]
      exact ih.cons a
    · rw [h1]
      exact ih.cons₂ a

/-- The joined accounts keep distinct subledger ids when the table's ids
are distinct (primary key). -/
theorem reportAccounts_ids_nodup (s : Store)
    (h : (s.subledgerAccounts.map (fun a => a.id)).Nodup) :
    ((reportAccounts s).map (fun p => p.1.id)).Nodup := by
  have hsub : ((reportAccounts s).map (fun p => p.1)).Sublist
      s.subledgerAccounts := by
    unfold reportAccounts
    rw [List.map_filterMap]
    apply filterMap_id_sublist
    intro a
    cases hl : lookupGLById s a.glAccountId with
    | none => left; rfl
    | some g =>
      by_cases hcond : a.isActive = true ∧ g.type ≠ AccountType.openingBalance
      · right; simp [hcond.1, hcond.2]
      · left; simp [hcond]
  have : ((reportAccounts s).map (fun p => p.1.id)) =
      (((reportAccounts s).map (fun p => p.1)).map (fun a => a.id)) := by
    rw [List.map_map]
    rfl
  rw [this]
  exact (hsub.map (fun a => a.id)).nodup h

/-- Summing an id-guarded term over accounts with distinct ids picks out
exactly the matching account's value. -/
theorem sum_map_ite_id (id0 : Int) (g : SubledgerAccount × GLAccount → ℚ) :
    ∀ (RA : List (SubledgerAccount × GLAccount)),
    (RA.map (fun p => p.1.id)).Nodup →
    ∀ p₀, p₀ ∈ RA → p₀.1.id = id0 →
    (RA.map (fun p => if id0 = p.1.id then g p else 0)).sum = g p₀ := by
  intro RA
  induction RA with
  | nil => intro _ p₀ hp₀; cases hp₀
  | cons q t ih =>
    intro hnd p₀ hp₀ hid
    rw [List.map_cons, List.nodup_cons] at hnd
    rw [List.map_cons, List.sum_cons]
    rcases List.mem_cons.mp hp₀ with rfl | hmem
    · rw [if_pos hid.symm]
      have hz : (t.map (fun p => if id0 = p.1.id then g p else 0)).sum = 0 := by
        apply List.sum_eq_zero
        intro x hx
        obtain ⟨p, hp, hpx⟩ := List.mem_map.mp hx
        rw [← hpx]
        rw [if_neg]
        intro he
        exact hnd.1 (List.mem_map.mpr ⟨p, hp, by rw [← he, hid]⟩)
      rw [hz, add_zero]
    · rw [if_neg]
      · rw [zero_add]
        exact ih hnd.2 p₀ hmem hid
      · intro he
        exact hnd.1 (List.mem_map.mpr ⟨p₀, hmem, by rw [hid, ← he]⟩)

/-- For every non-Opening-Balance type, the balance-sheet coefficient
times the debit-leg sign is `+1`. -/
theorem typeWeight_debit (T : AccountType)
    (h : T ≠ AccountType.openingBalance) (x : ℚ) :
    typeWeight T * (if T.isDebitNormal then x else -x) = x := by
  cases T <;> simp [typeWeight, AccountType.isDebitNormal] at h ⊢

/-- For every non-Opening-Balance type, the balance-sheet coefficient
times the credit-leg sign is `−1`. -/
theorem typeWeight_credit (T : AccountType)
    (h : T ≠ AccountType.openingBalance) (x : ℚ) :
    typeWeight T * (if T.isDebitNormal then -x else x) = -x := by
  cases T <;> simp [typeWeight, AccountType.isDebitNormal] at h ⊢

/-- Each journal entry whose two legs land on (distinct or equal)
report accounts contributes zero to the weighted sum: `+amount` through
its debit leg and `−amount` through its credit leg. -/
theorem weighted_contrib_sum_zero (RA : List (SubledgerAccount × GLAccount))
    (hnd : (RA.map (fun p => p.1.id)).Nodup)
    (hOB : ∀ p ∈ RA, p.2.type ≠ AccountType.openingBalance)
    (e : JournalEntry)
    (hd : ∃ p ∈ RA, p.1.id = e.debitAccountId)
    (hc : ∃ p ∈ RA, p.1.id = e.creditAccountId) :
    (RA.map (fun p => typeWeight p.2.type * contrib p.2.type p.1.id e)).sum
      = 0 := by
  obtain ⟨pd, hpd, hpdid⟩ := hd
  obtain ⟨pc, hpc, hpcid⟩ := hc
  have hsplit : (RA.map (fun p =>
      typeWeight p.2.type * contrib p.2.type p.1.id e)).sum =
      (RA.map (fun p => if e.debitAccountId = p.1.id then
        typeWeight p.2.type *
          (if p.2.type.isDebitNormal then e.amountInUSD else -e.amountInUSD)
        else 0)).sum +
      (RA.map (fun p => if e.creditAccountId = p.1.id then
        typeWeight p.2.type *
          (if p.2.type.isDebitNormal then -e.amountInUSD else e.amountInUSD)
        else 0)).sum := by
    rw [← List.sum_map_add]
    apply congrArg
    apply List.map_congr_left
    intro p _
    unfold contrib
    rw [mul_add]
    congr 1 <;> by_cases hp : e.debitAccountId = p.1.id <;>
      by_cases hq : e.creditAccountId = p.1.id <;>
      simp [hp, hq]
  rw [hsplit]
  rw [sum_map_ite_id e.debitAccountId _ RA hnd pd hpd hpdid]
  rw [sum_map_ite_id e.creditAccountId _ RA hnd pc hpc hpcid]
  rw [typeWeight_debit pd.2.type (hOB pd hpd) e.amountInUSD]
  rw [typeWeight_credit pc.2.type (hOB pc hpc) e.amountInUSD]
  ring

/-- **C2** (amended).  For a store whose subledger ids are distinct and
whose journal entries each have both legs on report accounts (existing,
**active**, non-Opening-Balance), the balance sheet as of any cutoff has
`totalAssets − (totalLiabilities + totalEquity + retainedEarnings)`
exactly 0, so `balanced` is `true`.  (The claim omits "active"; see the
counterexample.) -/
theorem balanceSheet_balanced_of_valid_legs (s : Store) (endC : Option Int)
    (hnd : (s.subledgerAccounts.map (fun a => a.id)).Nodup)
    (hlegs : ∀ e ∈ s.journalEntries,
      (∃ p ∈ reportAccounts s, p.1.id = e.debitAccountId) ∧
      (∃ p ∈ reportAccounts s, p.1.id = e.creditAccountId)) :
    (balanceSheet s endC).totalAssets -
      ((balanceSheet s endC).totalLiabilities +
       (balanceSheet s endC).totalEquity +
       (balanceSheet s endC).retainedEarnings) = 0 ∧
    (balanceSheet s endC).balanced = true := by
  have hOB : ∀ b ∈ calculateBalances s none endC,
      b.glAccountType ≠ AccountType.openingBalance := by
    intro b hb
    obtain ⟨p, hp, hpb⟩ := List.mem_map.mp hb
    have := (reportAccounts_mem s p hp).2.2.2
    rw [← hpb]
    exact this
  have hdiff : (balanceSheet s endC).totalAssets -
      ((balanceSheet s endC).totalLiabilities +
       (balanceSheet s endC).totalEquity +
       (balanceSheet s endC).retainedEarnings) = 0 := by
    have h1 := bs_diff_eq_weighted (calculateBalances s none endC) hOB
    have hshape : (balanceSheet s endC).totalAssets -
        ((balanceSheet s endC).totalLiabilities +
         (balanceSheet s endC).totalEquity +
         (balanceSheet s endC).retainedEarnings) =
        totalBalance ((calculateBalances s none endC).filter
          (fun b => b.glAccountType.isAssetGroup)) -
        (totalBalance ((calculateBalances s none endC).filter
            (fun b => b.glAccountType = AccountType.accountsPayable)) +
         totalBalance ((calculateBalances s none endC).filter
            (fun b => b.glAccountType = AccountType.equity)) +
         (totalBalance ((calculateBalances s none endC).filter
            (fun b => b.glAccountType = AccountType.profit)) -
          totalBalance ((calculateBalances s none endC).filter
            (fun b => b.glAccountType = AccountType.loss)))) := rfl
    rw [hshape, h1]
    have h2 : ((calculateBalances s none endC).map
        (fun b => typeWeight b.glAccountType * b.balance)) =
        ((reportAccounts s).map (fun p => typeWeight p.2.type *
          accountBalance (s.journalEntries.filter (inRange none endC))
            p.2.type p.1.id)) := by
      unfold calculateBalances
      rw [List.map_map]
      rfl
    rw [h2]
    have h3 : ((reportAccounts s).map (fun p => typeWeight p.2.type *
        accountBalance (s.journalEntries.filter (inRange none endC))
          p.2.type p.1.id)) =
        ((reportAccounts s).map (fun p =>
          ((s.journalEntries.filter (inRange none endC)).map (fun e =>
            typeWeight p.2.type * contrib p.2.type p.1.id e)).sum)) := by
      apply List.map_congr_left
      intro p _
      rw [accountBalance_eq_sum]
      rw [List.sum_map_mul_left]
    rw [h3]
    rw [sum_map_swap]
    apply List.sum_eq_zero
    intro x hx
    obtain ⟨e, he, hex⟩ := List.mem_map.mp hx
    have heJ : e ∈ s.journalEntries := (List.mem_filter.mp he).1
    rw [← hex]
    exact weighted_contrib_sum_zero (reportAccounts s)
      (reportAccounts_ids_nodup s hnd)
      (fun p hp => (reportAccounts_mem s p hp).2.2.2) e
      (hlegs e heJ).1 (hlegs e heJ).2
  refine ⟨hdiff, ?_⟩
  have hb : (balanceSheet s endC).balanced = decide
      (|(balanceSheet s endC).totalAssets -
        ((balanceSheet s endC).totalLiabilities +
         (balanceSheet s endC).totalEquity +
         (balanceSheet s endC).retainedEarnings)| < (1 : ℚ)/100) := rfl
  rw [hb, hdiff]
  apply decide_eq_true
  norm_num

/-- Witness for C2: `ledgerStore` (active non-Opening-Balance accounts on
both legs of both entries) yields a balanced balance sheet. -/
theorem balanceSheet_balanced_of_valid_legs_witness :
    (balanceSheet ledgerStore none).totalAssets -
      ((balanceSheet ledgerStore none).totalLiabilities +
       (balanceSheet ledgerStore none).totalEquity +
       (balanceSheet ledgerStore none).retainedEarnings) = 0 ∧
    (balanceSheet ledgerStore none).balanced = true :=
  balanceSheet_balanced_of_valid_legs ledgerStore none (by decide) (by decide)

/-- **C2** (counterexample).  With the debit-leg account inactive (but
existing and non-Opening-Balance), the 100 USD entry of `inactiveStore`
unbalances the sheet: the claim's hypothesis (only non-Opening-Balance
accounts touched) holds, yet `balanced` is `false`. -/
theorem balanceSheet_inactive_counterexample :
    (∀ e ∈ inactiveStore.journalEntries,
      (∃ a ∈ inactiveStore.subledgerAccounts, a.id = e.debitAccountId ∧
        ∃ g ∈ inactiveStore.glAccounts, g.id = a.glAccountId ∧
          g.type ≠ AccountType.openingBalance) ∧
      (∃ a ∈ inactiveStore.subledgerAccounts, a.id = e.creditAccountId ∧
        ∃ g ∈ inactiveStore.glAccounts, g.id = a.glAccountId ∧
          g.type ≠ AccountType.openingBalance)) ∧
    (balanceSheet inactiveStore none).balanced = false := by
  constructor
  · decide
  · norm_num [balanceSheet, calculateBalances, reportAccounts, lookupGLById,
      inactiveStore, baseStore, inactiveBank, subBank, subVendor, glAsset,
      glPayable, sampleEntry, inRange, accountBalance, contrib,
      AccountType.isDebitNormal, AccountType.isAssetGroup, totalBalance,
      List.filterMap_cons, List.find?, List.filter_cons, List.map_cons,
      List.foldl_cons,
      (show ¬ (AccountType.accountsPayable = AccountType.openingBalance) from
        by decide),
      (show ¬ (AccountType.asset = AccountType.openingBalance) from
        by decide),
      (show ¬ (AccountType.accountsPayable = AccountType.loss) from by decide),
      (show ¬ (AccountType.accountsPayable = AccountType.profit) from
        by decide),
      (show ¬ (AccountType.accountsPayable = AccountType.equity) from
        by decide)]

end Accounting
